import Mathlib

/-!
Verification of the Session state-stack core of the xfuse command-line tool.

The development shallowly embeds the two source files of the excerpt:
`hssl/__main__.py` (the `cli` group callback and the `run` command) and
`hssl/session/items/log_file.py` (the `log_file` session item's setter),
together with the Session/stack/persistence machinery that those files use.
The Session class itself, the persistence codec and the `ExitStack`-based
activation protocol are not part of the excerpt; definitions for them are
modelled from the specification and are marked as such in their doc comments.
-/

/-! ## Association lists

Both the Session override mapping and the modelled filesystem are
insertion-ordered association lists keyed by strings. -/

/-- Look up the value bound to key `k` in an association list, first binding
wins (mirrors Python `dict` access for the unique-key maps used here). -/
def lookupAssoc {α : Type} : List (String × α) → String → Option α
  | [], _ => Option.none
  | (k₀, v) :: rest, k => if k₀ = k then some v else lookupAssoc rest k

/-- Replace the binding of key `k` (or append it), keeping all other bindings:
mirrors Python `dict` item assignment / attribute assignment on a Session. -/
def updateAssoc {α : Type} : List (String × α) → String → α → List (String × α)
  | [], k, v => [(k, v)]
  | (k₀, v₀) :: rest, k, v =>
    if k₀ = k then (k, v) :: rest else (k₀, v₀) :: updateAssoc rest k v

/-! ## The `log_file` session item (`hssl/session/items/log_file.py`)

The setter's argument has Python type `Optional[Union[str, Type[Unset]]]`:
a path string, `None`, or the `Unset` sentinel. -/

/-- Argument passed to the `log_file` setter: `str`, `None`, or `Unset`. -/
inductive PathArg where
  | str (p : String)
  | pyNone
  | unset
  deriving DecidableEq

/-- `True` exactly when the argument is a `str` (the `isinstance(path, str)`
test on line 21 of `log_file.py`). -/
def PathArg.isStr : PathArg → Bool
  | PathArg.str _ => true
  | _ => false

/-- A filesystem: the set of existing directories and a map from file path to
file content. Models the slice of `os` behaviour the setter touches. -/
structure FileSystem where
  dirs : List String
  files : List (String × String)
  deriving DecidableEq

/-- Models `os.path.dirname`: everything before the last `/` separator. -/
def dirname (p : String) : String :=
  String.intercalate "/" (p.splitOn "/").dropLast

/-- Models `os.makedirs(d, exist_ok=True)`: create the directory if it does
not already exist; an existing directory is left alone. -/
def makedirs (d : String) (fs : FileSystem) : FileSystem :=
  if d ∈ fs.dirs then fs else { fs with dirs := fs.dirs ++ [d] }

/-- Models `open(p, "a")` (append mode): an existing file keeps its content;
a missing file is created empty. -/
def openAppend (p : String) (fs : FileSystem) : FileSystem :=
  match lookupAssoc fs.files p with
  | some _ => fs
  | Option.none => { fs with files := fs.files ++ [(p, "")] }

/-- Observable side-effect events of one `_setter` call, in program order. -/
inductive Event where
  | removeHandler
  | closeStream (p : String)
  | openStream (p : String)
  | addHandler
  deriving DecidableEq

/-- State read and written by `_setter`: the module globals `_LOG_HANDLER`
(a `StreamHandler`, modelled by the path of the stream it wraps) and
`_FILE_STREAM` (modelled by its path), the multiset of file streams opened
by this item that are currently open, and the filesystem. -/
structure LogFileState where
  logHandler : Option String
  fileStream : Option String
  openStreams : List String
  fs : FileSystem
  deriving DecidableEq

/-- The `log_file` setter (`_setter`, lines 12-27 of `log_file.py`):
if `_LOG_HANDLER` is not `None`, remove it from the logger and clear it;
if `_FILE_STREAM` is not `None`, close it and clear it; then, if the
argument is a `str`, create the parent directory, open the file in append
mode, wrap it in a handler and install the handler. Returns the new state
and the trace of side-effect events in the order they occur. -/
def setter (path : PathArg) (s : LogFileState) : LogFileState × List Event :=
  let (s₁, tr₁) :=
    match s.logHandler with
    | some _ => ({ s with logHandler := Option.none }, [Event.removeHandler])
    | Option.none => (s, ([] : List Event))
  let (s₂, tr₂) :=
    match s₁.fileStream with
    | some q =>
      ({ s₁ with fileStream := Option.none, openStreams := s₁.openStreams.erase q },
        tr₁ ++ [Event.closeStream q])
    | Option.none => (s₁, tr₁)
  match path with
  | PathArg.str p =>
    let fs₁ := makedirs (dirname p) s₂.fs
    let fs₂ := openAppend p fs₁
    ({ logHandler := some p, fileStream := some p,
       openStreams := s₂.openStreams ++ [p], fs := fs₂ },
      tr₂ ++ [Event.openStream p, Event.addHandler])
  | _ => (s₂, tr₂)

/-- Coupling invariant of the module globals: the streams opened by the
`log_file` item that are still open are exactly the one `_FILE_STREAM`
refers to (none when `_FILE_STREAM is None`). Holds at module load, where
both globals are `None` and nothing is open. -/
def StreamsInv (s : LogFileState) : Prop :=
  s.openStreams = s.fileStream.toList

/-- Setup events: opening a stream or installing a handler. -/
def Event.isSetup : Event → Bool
  | Event.openStream _ => true
  | Event.addHandler => true
  | _ => false

/-- `true` when every cleanup event (handler removal, stream close) of the
trace occurs before every setup event (stream open, handler install). -/
def cleanupPrecedesSetup : List Event → Bool
  | [] => true
  | e :: rest =>
    if e.isSetup then rest.all Event.isSetup else cleanupPrecedesSetup rest

/-- Effect of one event on the multiset of currently open streams. -/
def applyEvent (streams : List String) : Event → List String
  | Event.closeStream p => streams.erase p
  | Event.openStream p => streams ++ [p]
  | _ => streams

/-- `true` when, starting from `streams` open streams, after every prefix of
the trace at most one stream is open. -/
def allPrefixesAtMostOne (streams : List String) : List Event → Bool
  | [] => decide (streams.length ≤ 1)
  | e :: rest =>
    decide (streams.length ≤ 1) && allPrefixesAtMostOne (applyEvent streams e) rest

/-- Number of `openStream` events in a trace. -/
def countOpens : List Event → Nat
  | [] => 0
  | Event.openStream _ :: rest => countOpens rest + 1
  | _ :: rest => countOpens rest

/-- The module-load state of `log_file.py`: both globals `None`, no stream
open, and an empty filesystem. -/
def initLogFileState : LogFileState :=
  { logHandler := Option.none, fileStream := Option.none,
    openStreams := [], fs := { dirs := [], files := [] } }

/-- A state in which the `log_file` item has a handler installed and a stream
open for `run/log`, whose file already holds content `old`. -/
def activeLogState : LogFileState :=
  { logHandler := some "run/log", fileStream := some "run/log",
    openStreams := ["run/log"],
    fs := { dirs := ["run"], files := [("run/log", "old")] } }

/-! ## Sessions and the session stack

`hssl/session/__init__.py` is not part of the excerpt; the Session object,
the session stack and the activation protocol below are modelled from the
specification's data model (sections 3, 4.2, 4.3). -/

/-- A runtime value of a session item: a path string, an integer (such as a
log level), a live callable (such as the `panic` debugger hook, identified
by an id), or `None`. -/
inductive Value where
  | str (s : String)
  | int (n : Int)
  | fn (id : Nat)
  | null
  deriving DecidableEq

/-- Modelled from the spec: the Session object of `hssl/session` (not in the
excerpt) is "an immutable record at construction time of `overrides`: mapping
from item name to explicit value". -/
structure Session where
  overrides : List (String × Value)
  deriving DecidableEq

/-- `Session()` on line 31 of `__main__.py`: the default session, constructed
with no overrides. -/
def defaultSession : Session := { overrides := [] }

/-- Modelled from the spec: assigning an attribute on a Session (as
`_DEFAULT_SESSION.panic = _panic` does on line 54 of `__main__.py`) sets the
named item's override to the given value. -/
def setAttr (s : Session) (name : String) (v : Value) : Session :=
  { overrides := updateAssoc s.overrides name v }

/-- The `_panic` debugger hook defined inside `cli` (a live callable). -/
def panicHook : Value := Value.fn 0

/-- The `cli` group callback (lines 48-55 of `__main__.py`): when the
`--debug` flag is given it assigns the `panic` and `log_level` attributes of
the already-constructed `_DEFAULT_SESSION`; otherwise it does nothing. -/
def cli (debug : Bool) (s : Session) : Session :=
  if debug then
    setAttr (setAttr s "panic" panicHook) "log_level" (Value.int (-999))
  else s

/-- Modelled from the spec: activating a session pushes it on the session
stack (top of stack = head of list, the most recently activated session). -/
def enterAll (sessions : List Session) (stack : List Session) : List Session :=
  sessions.foldl (fun st s => s :: st) stack

/-- Modelled from the spec: deactivating a session pops it, but "a session
may only be deactivated when it is the current top of the stack; deactivating
out of order is a programming error and must be reported" — `Option.none`
reports the out-of-order case. -/
def deactivate (s : Session) (stack : List Session) : Option (List Session) :=
  match stack with
  | top :: rest => if top = s then some rest else Option.none
  | [] => Option.none

/-- Modelled from the spec: `contextlib.ExitStack.__exit__` unwinds its
entered contexts in reverse order of entry, deactivating each; the result is
`Option.none` if any deactivation is out of order. -/
def exitAll : List Session → List Session → Option (List Session)
  | [], stack => some stack
  | s :: rest, stack =>
    match exitAll rest stack with
    | some st => deactivate s st
    | Option.none => Option.none

/-- Modelled from the spec: the `with ExitStack() as stack:` block of the
`run` command (lines 167-169 of `__main__.py`). All sessions are entered in
order; the body then runs (returning normally or raising, `Except.error`);
on every exit path the exit stack unwinds, deactivating the entered sessions
in reverse order. Returns the body's outcome and the final session stack. -/
def withSessions (sessions : List Session) (body : Except String Unit)
    (stack : List Session) : Except String Unit × Option (List Session) :=
  (body, exitAll sessions (enterAll sessions stack))

/-- The session list built by the `run` command (lines 157-165 of
`__main__.py`): the loaded saved session (when `--session` was supplied)
first, then the freshly constructed session. -/
def runCommandSessions (loaded : Option Session) (fresh : Session) : List Session :=
  (match loaded with | some s => [s] | Option.none => []) ++ [fresh]

/-- The fresh session constructed by `run` (lines 160-165 of `__main__.py`):
`Session(save_path=save_path, log_file=first_unique_filename(...))`. -/
def runFreshSession (savePath logFilePath : String) : Session :=
  { overrides := [("save_path", Value.str savePath), ("log_file", Value.str logFilePath)] }

/-- Modelled from the spec: the effective value of an item "scans from top of
stack downward, returns the first override found, else the registered
default"; `defaults` is the registry's name-to-default mapping. -/
def effective (stack : List Session) (defaults : List (String × Value))
    (name : String) : Option Value :=
  match stack with
  | [] => lookupAssoc defaults name
  | s :: rest =>
    match lookupAssoc s.overrides name with
    | some v => some v
    | Option.none => effective rest defaults name

/-! ## The persistence codec

`save_session` / `load_session` (`hssl/utility/session.py`) are not in the
excerpt; the codec is modelled from the specification (section 4.4). -/

/-- A value node of the structured on-disk session document. -/
inductive DocValue where
  | dstr (s : String)
  | dint (n : Int)
  | dnull
  deriving DecidableEq

/-- Modelled from the spec: encoding one override value into the document.
Live callables (e.g. a `panic` hook) are not representable: the encoder
returns `Option.none` and `save` skips the item with a warning. -/
def encodeValue : Value → Option DocValue
  | Value.str s => some (DocValue.dstr s)
  | Value.int n => some (DocValue.dint n)
  | Value.null => some DocValue.dnull
  | Value.fn _ => Option.none

/-- Decoding one document node back into a runtime value (total: every
structurally valid node decodes). -/
def decodeValue : DocValue → Value
  | DocValue.dstr s => Value.str s
  | DocValue.dint n => Value.int n
  | DocValue.dnull => Value.null

/-- Modelled from the spec: `save(session)` encodes each override in order,
skipping items whose values are not encodable rather than failing. -/
def saveOverrides (l : List (String × Value)) : List (String × DocValue) :=
  l.filterMap (fun p => (encodeValue p.2).map (fun d => (p.1, d)))

/-- `save` at the Session level. -/
def save (s : Session) : List (String × DocValue) :=
  saveOverrides s.overrides

/-- Modelled from the spec: `load(document)` validates every key against the
item registry (`reg`, the registered name set) and constructs overrides,
failing with `UnknownItemError` on an unregistered name. -/
def loadOverrides (reg : List String) : List (String × DocValue) → Except String (List (String × Value))
  | [] => Except.ok []
  | (n, d) :: rest =>
    if n ∈ reg then
      match loadOverrides reg rest with
      | Except.ok l => Except.ok ((n, decodeValue d) :: l)
      | Except.error e => Except.error e
    else Except.error ("UnknownItemError: " ++ n)

/-- `load` at the Session level. -/
def load (reg : List String) (doc : List (String × DocValue)) : Except String Session :=
  (loadOverrides reg doc).map Session.mk

/-! ## The version check of the `run` command (`__main__.py` lines 174-183) -/

/-- Log levels appearing in the embedded fragment. -/
inductive LogLevel where
  | debugLevel
  | warningLevel
  deriving DecidableEq

/-- The project configuration as the version check sees it: the recorded
`xfuse.version` plus the rest of the config (opaque to the check, represented
by the `network_depth` field it must not touch). -/
structure Config where
  version : String
  networkDepth : Nat
  deriving DecidableEq

/-- The warning text of lines 176-182 of `__main__.py`, interpolated. -/
def versionWarningMsg (pkg oldVersion current : String) : String :=
  "Config was created using " ++ pkg ++ " version " ++ oldVersion ++
    " but this is version " ++ current

/-- The version check of `run` (lines 174-183 of `__main__.py`): if the
config's recorded version differs from the running package version, log a
warning and overwrite the config's version with the current one; otherwise
do nothing. Returns the resulting config and the emitted log records. -/
def checkConfigVersion (pkg : String) (config : Config) (current : String) :
    Config × List (LogLevel × String) :=
  if config.version ≠ current then
    ({ config with version := current },
      [(LogLevel.warningLevel, versionWarningMsg pkg config.version current)])
  else (config, [])

/-! ## Helper lemmas -/

/-- `makedirs` puts the requested directory into the filesystem. -/
theorem mem_makedirs_self (d : String) (fs : FileSystem) : d ∈ (makedirs d fs).dirs := by
  unfold makedirs
  by_cases h : d ∈ fs.dirs <;> simp [h]

/-- A directory that already exists makes `makedirs` a no-op. -/
theorem makedirs_eq_of_mem {d : String} {fs : FileSystem} (h : d ∈ fs.dirs) :
    makedirs d fs = fs := by
  simp [makedirs, h]

/-- `openAppend` does not touch directories. -/
theorem openAppend_dirs (p : String) (fs : FileSystem) :
    (openAppend p fs).dirs = fs.dirs := by
  unfold openAppend
  cases lookupAssoc fs.files p <;> rfl

/-- Appending a binding for an absent key makes it found. -/
theorem lookupAssoc_append_of_none {α : Type} {l : List (String × α)} {p : String}
    (v : α) (h : lookupAssoc l p = Option.none) :
    lookupAssoc (l ++ [(p, v)]) p = some v := by
  induction l with
  | nil => simp [lookupAssoc]
  | cons q rest ih =>
    rcases q with ⟨k₀, v₀⟩
    by_cases hk : k₀ = p
    · simp [lookupAssoc, hk] at h
    · simp [lookupAssoc, hk] at h ⊢
      exact ih h

/-- After `openAppend p`, the file at `p` exists and holds its previous
content, or is empty if it did not exist. -/
theorem lookup_openAppend (p : String) (fs : FileSystem) :
    lookupAssoc (openAppend p fs).files p = some ((lookupAssoc fs.files p).getD "") := by
  unfold openAppend
  cases h : lookupAssoc fs.files p with
  | some c => simp [h]
  | none => simp [lookupAssoc_append_of_none "" h]

/-- Opening a file that already exists is a no-op on the filesystem. -/
theorem openAppend_eq_of_isSome {p : String} {fs : FileSystem}
    (h : (lookupAssoc fs.files p).isSome = true) : openAppend p fs = fs := by
  unfold openAppend
  cases hl : lookupAssoc fs.files p with
  | some c => rfl
  | none => rw [hl] at h; simp at h

/-- Repeating the `makedirs`-then-`openAppend` sequence of the setter leaves
the filesystem unchanged. -/
theorem openAppend_makedirs_stable (d p : String) (fs : FileSystem) :
    openAppend p (makedirs d (openAppend p (makedirs d fs))) =
      openAppend p (makedirs d fs) := by
  have h1 : d ∈ (openAppend p (makedirs d fs)).dirs := by
    rw [openAppend_dirs]
    exact mem_makedirs_self d fs
  rw [makedirs_eq_of_mem h1]
  have h2 : (lookupAssoc (openAppend p (makedirs d fs)).files p).isSome = true := by
    rw [lookup_openAppend]
    rfl
  rw [openAppend_eq_of_isSome h2]

/-- Updating one key leaves lookups of every other key unchanged. -/
theorem lookupAssoc_updateAssoc_ne {α : Type} (l : List (String × α)) {k name : String}
    (v : α) (h : k ≠ name) :
    lookupAssoc (updateAssoc l k v) name = lookupAssoc l name := by
  induction l with
  | nil => simp [updateAssoc, lookupAssoc, h]
  | cons q rest ih =>
    rcases q with ⟨k₀, v₀⟩
    by_cases hk : k₀ = k
    · subst hk
      simp [updateAssoc, lookupAssoc, h]
    · simp [updateAssoc, lookupAssoc, hk]
      by_cases hn : k₀ = name <;> simp [hn, ih]

/-- Pushing then popping a list of sessions always succeeds and restores the
stack that was there before — the LIFO discipline of `ExitStack`. -/
theorem exitAll_enterAll (sessions : List Session) :
    ∀ stack, exitAll sessions (enterAll sessions stack) = some stack := by
  induction sessions with
  | nil => intro stack; rfl
  | cons s rest ih =>
    intro stack
    have hstep : enterAll (s :: rest) stack = enterAll rest (s :: stack) := rfl
    rw [hstep]
    show (match exitAll rest (enterAll rest (s :: stack)) with
      | some st => deactivate s st
      | Option.none => Option.none) = some stack
    rw [ih (s :: stack)]
    simp [deactivate]

/-- An encodable value decodes back to itself. -/
theorem decode_encode {v : Value} {d : DocValue} (h : encodeValue v = some d) :
    decodeValue d = v := by
  cases v <;> simp [encodeValue] at h <;> subst h <;> rfl

/-- List-level round trip of the persistence codec: saving overrides that are
all encodable and all registered, then loading, reproduces them exactly. -/
theorem loadOverrides_saveOverrides (reg : List String) (l : List (String × Value))
    (henc : l.all (fun p => (encodeValue p.2).isSome) = true)
    (hreg : l.all (fun p => decide (p.1 ∈ reg)) = true) :
    loadOverrides reg (saveOverrides l) = Except.ok l := by
  induction l with
  | nil => rfl
  | cons q rest ih =>
    rcases q with ⟨n, v⟩
    rw [List.all_cons] at henc hreg
    obtain ⟨henc1, henc2⟩ := Bool.and_eq_true_iff.mp henc
    obtain ⟨hreg1, hreg2⟩ := Bool.and_eq_true_iff.mp hreg
    obtain ⟨d, hd⟩ := Option.isSome_iff_exists.mp henc1
    have hsave : saveOverrides ((n, v) :: rest) = (n, d) :: saveOverrides rest := by
      simp [saveOverrides, hd]
    rw [hsave]
    show (if n ∈ reg then
        (match loadOverrides reg (saveOverrides rest) with
          | Except.ok l => Except.ok ((n, decodeValue d) :: l)
          | Except.error e => Except.error e)
      else Except.error ("UnknownItemError: " ++ n)) = Except.ok ((n, v) :: rest)
    rw [if_pos (of_decide_eq_true hreg1), ih henc2 hreg2, decode_encode hd]

/-! ## Claim theorems -/

/-- C1: exiting a Session's activation scope always runs deactivation, on
every exit path: for any list of sessions entered into the `ExitStack` of the
`run` command's `with` block — in particular the loaded-then-fresh list the
`run` command builds — unwinding deactivates every entered session in LIFO
order without ever hitting an out-of-order top, and restores exactly the
session stack that existed before the block, whether the body returned
normally or raised. -/
theorem run_sessions_always_deactivated (sessions : List Session)
    (loaded : Option Session) (fresh : Session)
    (body : Except String Unit) (stack : List Session) :
    (withSessions sessions body stack).2 = some stack ∧
    (withSessions (runCommandSessions loaded fresh) body stack).2 = some stack ∧
    (withSessions sessions body stack).1 = body :=
  ⟨by simp [withSessions, exitAll_enterAll],
    by simp [withSessions, exitAll_enterAll], rfl⟩

/-- C2 counterexample: the claim "no attribute of an already-constructed
Session is assigned" fails on the code: the `cli` group callback, invoked
with the `--debug` flag, assigns the `panic` and `log_level` attributes of
the module-level `_DEFAULT_SESSION` constructed on line 31, changing its
override set. -/
theorem session_mutation_counterexample :
    cli true defaultSession ≠ defaultSession := by decide

/-- C2 (amended): Sessions are never mutated after construction except by the
`cli` group callback under the `--debug` flag: without the flag `cli` leaves
the session untouched, and even with the flag the only overrides it assigns
are `panic` and `log_level` — every other item's override is unchanged. -/
theorem cli_mutates_only_panic_and_log_level (d : Bool) (s : Session) (name : String) :
    cli false s = s ∧
    (name ≠ "panic" → name ≠ "log_level" →
      lookupAssoc (cli d s).overrides name = lookupAssoc s.overrides name) := by
  refine ⟨rfl, fun h1 h2 => ?_⟩
  cases d with
  | false => rfl
  | true =>
    show lookupAssoc (updateAssoc (updateAssoc s.overrides "panic" panicHook)
      "log_level" (Value.int (-999))) name = lookupAssoc s.overrides name
    rw [lookupAssoc_updateAssoc_ne _ _ (Ne.symm h2),
      lookupAssoc_updateAssoc_ne _ _ (Ne.symm h1)]

/-- C2 witness: the `save_path` item is not one of the two debug overrides,
and its override on `_DEFAULT_SESSION` is unchanged by `cli --debug`. -/
theorem cli_mutates_only_panic_and_log_level_witness :
    ("save_path" : String) ≠ "panic" ∧ ("save_path" : String) ≠ "log_level" ∧
    cli false defaultSession = defaultSession ∧
    lookupAssoc (cli true defaultSession).overrides "save_path" =
      lookupAssoc defaultSession.overrides "save_path" :=
  ⟨by decide, by decide,
    (cli_mutates_only_panic_and_log_level true defaultSession "save_path").1,
    (cli_mutates_only_panic_and_log_level true defaultSession "save_path").2
      (by decide) (by decide)⟩

/-- C3: every `log_file` setter invocation removes the previously installed
handler and closes the previously open stream before opening any new stream
or installing any new handler (every cleanup event precedes every setup event
in the trace, and the trace does contain the removal/close when a handler or
stream was present); consequently, starting from the coupled-globals state,
at most one stream opened by the item is open at every point of the call. -/
theorem log_file_cleanup_before_setup (path : PathArg) (s : LogFileState)
    (h : StreamsInv s) :
    cleanupPrecedesSetup (setter path s).2 = true ∧
    allPrefixesAtMostOne s.openStreams (setter path s).2 = true ∧
    (s.logHandler.isSome = true → Event.removeHandler ∈ (setter path s).2) ∧
    (∀ q, s.fileStream = some q → Event.closeStream q ∈ (setter path s).2) := by
  rcases s with ⟨hl, hf, os, fs⟩
  unfold StreamsInv at h
  simp only at h
  cases hf with
  | none =>
    simp only [Option.toList] at h
    subst h
    cases path <;> cases hl <;>
      simp [setter, cleanupPrecedesSetup, allPrefixesAtMostOne, applyEvent,
        Event.isSetup]
  | some q =>
    simp only [Option.toList] at h
    subst h
    cases path <;> cases hl <;>
      simp [setter, cleanupPrecedesSetup, allPrefixesAtMostOne, applyEvent,
        Event.isSetup, List.erase_cons_head]

/-- C3 witness: from a state with an installed handler and an open stream for
`run/log`, a setter call for a new path cleans up before setting up and never
has two streams open. -/
theorem log_file_cleanup_before_setup_witness :
    StreamsInv activeLogState ∧
    cleanupPrecedesSetup (setter (PathArg.str "run/log-1") activeLogState).2 = true ∧
    allPrefixesAtMostOne activeLogState.openStreams
      (setter (PathArg.str "run/log-1") activeLogState).2 = true ∧
    Event.closeStream "run/log" ∈ (setter (PathArg.str "run/log-1") activeLogState).2 :=
  ⟨rfl,
    (log_file_cleanup_before_setup (PathArg.str "run/log-1") activeLogState rfl).1,
    (log_file_cleanup_before_setup (PathArg.str "run/log-1") activeLogState rfl).2.1,
    (log_file_cleanup_before_setup (PathArg.str "run/log-1") activeLogState rfl).2.2.2
      "run/log" rfl⟩

/-- C4: in the `run` command the loaded session is activated before the
freshly constructed session carrying the current run's `save_path` and
`log_file`, so while both are active any item overridden by both — in
particular `save_path` — has the fresh session's override as its effective
value. -/
theorem run_fresh_session_wins (loaded : Session) (sp lf : String)
    (base : List Session) (defaults : List (String × Value))
    (name : String) (v w : Value)
    (hf : lookupAssoc (runFreshSession sp lf).overrides name = some v)
    (hl : lookupAssoc loaded.overrides name = some w) :
    effective (enterAll (runCommandSessions (some loaded) (runFreshSession sp lf))
      base) defaults name = some v := by
  show effective (runFreshSession sp lf :: loaded :: base) defaults name = some v
  unfold effective
  rw [hf]

/-- C4 witness: a resumed session recorded `save_path = runs/old`; the fresh
session of the current run pins `save_path = runs/new`, and `runs/new` is the
effective value while both are active. -/
theorem run_fresh_session_wins_witness :
    lookupAssoc (runFreshSession "runs/new" "runs/new/log").overrides "save_path" =
      some (Value.str "runs/new") ∧
    lookupAssoc (Session.mk [("save_path", Value.str "runs/old")]).overrides
      "save_path" = some (Value.str "runs/old") ∧
    effective (enterAll (runCommandSessions
        (some (Session.mk [("save_path", Value.str "runs/old")]))
        (runFreshSession "runs/new" "runs/new/log")) []) [] "save_path" =
      some (Value.str "runs/new") :=
  ⟨by decide, by decide,
    run_fresh_session_wins (Session.mk [("save_path", Value.str "runs/old")])
      "runs/new" "runs/new/log" [] [] "save_path" (Value.str "runs/new")
      (Value.str "runs/old") (by decide) (by decide)⟩

/-- `makedirs` does not touch files. -/
theorem makedirs_files (d : String) (fs : FileSystem) :
    (makedirs d fs).files = fs.files := by
  unfold makedirs
  split <;> rfl

/-- C5: calling the `log_file` setter with a non-string value (`None` or the
`Unset` sentinel) leaves no handler attached and no stream open — both module
globals end up `None` — opens no file (the filesystem is untouched and the
trace contains no open event), and the call completes (the setter is a total
function). -/
theorem log_file_setter_unset_clears (s : LogFileState) :
    (setter PathArg.pyNone s).1.logHandler = Option.none ∧
    (setter PathArg.pyNone s).1.fileStream = Option.none ∧
    (setter PathArg.unset s).1.logHandler = Option.none ∧
    (setter PathArg.unset s).1.fileStream = Option.none ∧
    (setter PathArg.pyNone s).1.fs = s.fs ∧
    (setter PathArg.unset s).1.fs = s.fs ∧
    countOpens (setter PathArg.pyNone s).2 = 0 ∧
    countOpens (setter PathArg.unset s).2 = 0 := by
  rcases s with ⟨hl, hf, os, fs⟩
  cases hl <;> cases hf <;> simp [setter, countOpens]

/-- C6: calling the `log_file` setter twice in succession with the same value
is safe: the second call also completes, and the observable state — which
path's stream is open, whether (and for which stream) a handler is attached,
and the filesystem — equals the state after a single call. -/
theorem log_file_setter_idempotent (path : PathArg) (s : LogFileState) :
    (setter path (setter path s).1).1.logHandler = (setter path s).1.logHandler ∧
    (setter path (setter path s).1).1.fileStream = (setter path s).1.fileStream ∧
    (setter path (setter path s).1).1.fs = (setter path s).1.fs := by
  rcases s with ⟨hl, hf, os, fs⟩
  cases path <;> cases hl <;> cases hf <;>
    simp [setter, openAppend_makedirs_stable]

/-- C7: saving a Session whose overrides are all encodable and all registered
and loading the resulting document reconstructs an equivalent Session — the
same override keys and values, in the same order. -/
theorem save_load_round_trip (reg : List String) (s : Session)
    (henc : s.overrides.all (fun p => (encodeValue p.2).isSome) = true)
    (hreg : s.overrides.all (fun p => decide (p.1 ∈ reg)) = true) :
    load reg (save s) = Except.ok s := by
  rcases s with ⟨l⟩
  show (loadOverrides reg (saveOverrides l)).map Session.mk = Except.ok (Session.mk l)
  rw [loadOverrides_saveOverrides reg l henc hreg]
  rfl

/-- C7 witness: a session pinning `save_path` and `log_level` — both
encodable, both registered — round-trips exactly. -/
theorem save_load_round_trip_witness :
    ((Session.mk [("save_path", Value.str "out"), ("log_level", Value.int 2)]).overrides.all
      (fun p => (encodeValue p.2).isSome) = true) ∧
    ((Session.mk [("save_path", Value.str "out"), ("log_level", Value.int 2)]).overrides.all
      (fun p => decide (p.1 ∈ ["save_path", "log_file", "log_level"])) = true) ∧
    load ["save_path", "log_file", "log_level"]
      (save (Session.mk [("save_path", Value.str "out"), ("log_level", Value.int 2)])) =
      Except.ok (Session.mk [("save_path", Value.str "out"), ("log_level", Value.int 2)]) :=
  ⟨by decide, by decide, save_load_round_trip _ _ (by decide) (by decide)⟩

/-- C8: after every `log_file` setter call the module globals are paired —
`_LOG_HANDLER` is non-`None` exactly when `_FILE_STREAM` is — and both are
non-`None` exactly when the argument just passed was a string. -/
theorem log_file_handler_stream_paired (path : PathArg) (s : LogFileState) :
    (setter path s).1.logHandler.isSome = (setter path s).1.fileStream.isSome ∧
    (setter path s).1.fileStream.isSome = path.isStr := by
  rcases s with ⟨hl, hf, os, fs⟩
  cases path <;> cases hl <;> cases hf <;> simp [setter, PathArg.isStr]

/-- C9: for every string path, the `log_file` setter ensures the path's
parent directory exists and opens the file in append mode: afterwards the
file exists and holds exactly the content it had before (or is empty if it
did not exist), and the stream for that path is the open one. -/
theorem log_file_append_preserves_content (p : String) (s : LogFileState) :
    dirname p ∈ (setter (PathArg.str p) s).1.fs.dirs ∧
    lookupAssoc (setter (PathArg.str p) s).1.fs.files p =
      some ((lookupAssoc s.fs.files p).getD "") ∧
    (setter (PathArg.str p) s).1.fileStream = some p := by
  rcases s with ⟨hl, hf, os, fs⟩
  cases hl <;> cases hf <;>
    simp [setter, openAppend_dirs, mem_makedirs_self, lookup_openAppend,
      makedirs_files]

/-- C10: when the project configuration's recorded version differs from the
running package version, the `run` command's version check emits exactly one
warning-level log record with the interpolated message, overwrites the
config's version field with the current version, leaves the rest of the
config untouched, and returns normally. -/
theorem version_mismatch_warns_and_continues (pkg : String) (config : Config)
    (current : String) (h : config.version ≠ current) :
    (checkConfigVersion pkg config current).1.version = current ∧
    (checkConfigVersion pkg config current).1.networkDepth = config.networkDepth ∧
    (checkConfigVersion pkg config current).2 =
      [(LogLevel.warningLevel, versionWarningMsg pkg config.version current)] := by
  simp [checkConfigVersion, h]

/-- C10 witness: a config recorded by version `0.1.0` run under `0.2.0` gets
its version replaced and exactly one warning emitted. -/
theorem version_mismatch_warns_and_continues_witness :
    ("0.1.0" : String) ≠ "0.2.0" ∧
    (checkConfigVersion "xfuse" (Config.mk "0.1.0" 6) "0.2.0").1.version = "0.2.0" ∧
    (checkConfigVersion "xfuse" (Config.mk "0.1.0" 6) "0.2.0").1.networkDepth = 6 ∧
    (checkConfigVersion "xfuse" (Config.mk "0.1.0" 6) "0.2.0").2 =
      [(LogLevel.warningLevel, versionWarningMsg "xfuse" "0.1.0" "0.2.0")] :=
  ⟨by decide,
    (version_mismatch_warns_and_continues "xfuse" (Config.mk "0.1.0" 6) "0.2.0"
      (by decide)).1,
    (version_mismatch_warns_and_continues "xfuse" (Config.mk "0.1.0" 6) "0.2.0"
      (by decide)).2.1,
    (version_mismatch_warns_and_continues "xfuse" (Config.mk "0.1.0" 6) "0.2.0"
      (by decide)).2.2⟩
